import Mathlib

/-!
Verification of the rotation-control daemon of the Proton_Rotator repository
(source file pvpn-rotator.py). The in-memory state of the daemon, its command
processing, and the structure of its main loop are embedded shallowly below;
side effects on the outside world (persisting the snapshot, disconnecting the
VPN backend, sleeping, emitting a status line) are recorded as an explicit
effect trace.
-/

namespace ProtonRotator

/-- ASCII whitespace as recognized by the Python str.split / str.strip
(space, tab, newline, carriage return, vertical tab, form feed). -/
def isPySpace (c : Char) : Bool :=
  c = ' ' || c = '\t' || c = '\n' || c = '\r' || c = '\x0b' || c = '\x0c'

/-- Helper for pySplit: splits a character list on runs of whitespace,
accumulating the current (reversed) token. -/
def splitWsAux : List Char → List Char → List (List Char)
  | [], acc => if acc = [] then [] else [acc.reverse]
  | c :: cs, acc =>
    if isPySpace c then
      if acc = [] then splitWsAux cs [] else acc.reverse :: splitWsAux cs []
    else splitWsAux cs (c :: acc)

/-- Model of Python str.split() with no argument: split on runs of
whitespace, discarding empty tokens. -/
def pySplit (s : String) : List String :=
  (splitWsAux s.data []).map fun l => ⟨l⟩

/-- Model of Python str.strip(): remove leading and trailing whitespace. -/
def pyStrip (s : String) : String :=
  ⟨((s.data.dropWhile isPySpace).reverse.dropWhile isPySpace).reverse⟩

/-- Model of Python str.lower() on ASCII text (the action tokens of the daemon). -/
def pyLower (s : String) : String := ⟨s.data.map Char.toLower⟩

/-- Model of Python str.upper() on ASCII text (the list-name argument). -/
def pyUpper (s : String) : String := ⟨s.data.map Char.toUpper⟩

/-- Decimal value of a digit list, most significant first. -/
def digitsVal (ds : List Char) : Nat :=
  ds.foldl (fun acc c => acc * 10 + (c.toNat - '0'.toNat)) 0

/-- Model of Python int(str) on ASCII decimal strings: surrounding
whitespace is stripped, an optional single sign is allowed, and the rest
must be a nonempty run of digits; anything else raises ValueError,
modelled as none. (Underscore digit separators are not modelled; no claim
depends on them.) -/
def pyToInt (t : String) : Option Int :=
  let l := ((t.data.dropWhile isPySpace).reverse.dropWhile isPySpace).reverse
  let sg : Int := match l with
    | '-' :: _ => -1
    | _ => 1
  let ds : List Char := match l with
    | '-' :: cs => cs
    | '+' :: cs => cs
    | _ => l
  if ds ≠ [] ∧ ds.all Char.isDigit then some (sg * (digitsVal ds : Int)) else none

/-- The persisted configuration snapshot (DEFAULT_CONFIG keys in
pvpn-rotator.py). Python ints are embedded as Int; the modulo at each read
is Int.emod, which agrees with the Python % for a positive divisor. -/
structure Config where
  active_list : String
  switch_interval_minutes : Int
  current_index : Int
  running : Bool
  paused : Bool
deriving Repr, DecidableEq

/-- DEFAULT_CONFIG from pvpn-rotator.py. -/
def defaultConfig : Config :=
  { active_list := "A", switch_interval_minutes := 10, current_index := 0,
    running := false, paused := false }

/-- The in-memory daemon state (VPNRotatorDaemon attributes: the working
config copy, the shutdown flag, the paused flag, and the recorded current
connection identity). -/
structure DaemonState where
  config : Config
  shutdown : Bool
  paused : Bool
  current_connection : Option String
deriving Repr, DecidableEq

/-- VPNRotatorDaemon.__init__ starting from the default config. -/
def initialState : DaemonState :=
  { config := defaultConfig, shutdown := false,
    paused := defaultConfig.paused, current_connection := none }

/-- Observable side effects of the daemon, recorded in program order:
persisting the snapshot (save_config), disconnecting the backend
(disconnect_vpn), sleeping for a number of seconds, and emitting a status
line (log_status). -/
inductive Effect where
  | persist
  | disconnect
  | sleep (seconds : Nat)
  | logStatus
deriving Repr, DecidableEq, BEq

/-- Number of disconnect invocations in an effect trace. -/
def countDisconnects (es : List Effect) : Nat := es.count Effect.disconnect

/-- Dispatch on the lowered action token with its argument tokens: the
if/elif chain of VPNRotatorDaemon.process_command after
action = parts[0].lower(). disconnect_vpn() both runs the backend
disconnect and clears current_connection. -/
def processAction (s : DaemonState) (action : String) (args : List String) :
    DaemonState × List Effect :=
  if action = "stop" then
    ({ s with shutdown := true,
              config := { s.config with running := false },
              current_connection := none },
     [Effect.persist, Effect.disconnect])
  else if action = "pause" then
    ({ s with paused := true, config := { s.config with paused := true } },
     [Effect.persist])
  else if action = "resume" then
    ({ s with paused := false, config := { s.config with paused := false } },
     [Effect.persist])
  else if action = "switch" then
    match args with
    | [] => (s, [])
    | l :: _ =>
      let newList := pyUpper l
      if newList = "A" ∨ newList = "B" then
        ({ s with config := { s.config with active_list := newList,
                                            current_index := 0 } },
         [Effect.persist])
      else (s, [])
  else if action = "interval" then
    match args with
    | [] => (s, [])
    | m :: _ =>
      match pyToInt m with
      | some minutes =>
        if 1 ≤ minutes ∧ minutes ≤ 1440 then
          ({ s with config :=
              { s.config with switch_interval_minutes := minutes } },
           [Effect.persist])
        else (s, [])
      | none => (s, [])
  else if action = "skip" then
    ({ s with config :=
        { s.config with current_index := s.config.current_index + 1 },
              current_connection := none },
     [Effect.persist, Effect.disconnect])
  else if action = "status" then
    (s, [Effect.logStatus])
  else (s, [])

/-- VPNRotatorDaemon.process_command: guard against empty input, split the
text on whitespace, lower the first token and dispatch. -/
def processCommand (s : DaemonState) (cmd : String) : DaemonState × List Effect :=
  if cmd = "" then (s, [])
  else
    match pySplit cmd with
    | [] => (s, [])
    | a :: args => processAction s (pyLower a) args

/-- Folding a whole command sequence through process_command. -/
def applyCommands (s : DaemonState) (cmds : List String) : DaemonState :=
  cmds.foldl (fun st c => (processCommand st c).1) s

/-- The index used to select a server at each read:
config.get current_index mod len servers (pvpn-rotator.py line 239). -/
def selIndex (s : DaemonState) (len : Nat) : Int :=
  s.config.current_index % (len : Int)

/-- One poll of the control pipe followed by command dispatch:
read_command strips the chunk read from the pipe and yields None when the
result is empty, in which case run does not call process_command. -/
def pollProcess (s : DaemonState) (data : String) : DaemonState × List Effect :=
  if pyStrip data = "" then (s, []) else processCommand s (pyStrip data)

/-- The wait phase of the main loop (lines 268-288): each element of cmds
is a command received on some 5-second tick; after processing one, the
wait breaks when shutdown or paused holds; the list running out models the
interval expiring with no further commands. -/
def waitPhase (s : DaemonState) : List String → DaemonState × List Effect
  | [] => (s, [])
  | c :: cs =>
    let s' := (processCommand s c).1
    let e := (processCommand s c).2
    if s'.shutdown || s'.paused then (s', e)
    else ((waitPhase s' cs).1, e ++ (waitPhase s' cs).2)

/-- The success branch after a connection (lines 260-313): run the wait
phase, then break the loop if shutdown, stay connected and continue if
paused, otherwise disconnect, sleep 2, store (idx+1) mod len as the new
index and persist. idx and len are the values read at the top of the tick.
The Bool is true when the branch breaks out of the main loop. -/
def successTick (s : DaemonState) (idx len : Nat) (cmds : List String) :
    DaemonState × List Effect × Bool :=
  let s₁ := (waitPhase s cmds).1
  let e₁ := (waitPhase s cmds).2
  if s₁.shutdown then (s₁, e₁, true)
  else if s₁.paused then (s₁, e₁, false)
  else
    ({ s₁ with current_connection := none,
               config := { s₁.config with
                 current_index := ((idx : Int) + 1) % (len : Int) } },
     e₁ ++ [Effect.disconnect, Effect.sleep 2, Effect.persist], false)

/-- The failure branch (lines 256-257 and 314-321): the recorded connection
identity is cleared, the index advances to (idx+1) mod len, the snapshot is
persisted, and the loop continues after a 10-second cooldown. The Bool is
true when the branch breaks out of the main loop (it never does). -/
def failureTick (s : DaemonState) (idx len : Nat) :
    DaemonState × List Effect × Bool :=
  ({ s with current_connection := none,
            config := { s.config with
              current_index := ((idx : Int) + 1) % (len : Int) } },
   [Effect.persist, Effect.sleep 10], false)

/-- The command poll at the top of a loop iteration (lines 220-224): cmd is
the text read_command returned, or none. -/
def pollStep (s : DaemonState) (cmd : Option String) : DaemonState × List Effect :=
  match cmd with
  | none => (s, [])
  | some d => pollProcess s d

/-- External input consumed by one main-loop iteration: either a normal
iteration (the polled command if any, the active server list as re-read
from disk, whether the backend connect succeeds, the identity the backend
resolves, and the commands arriving during the wait phase), or an
exception raised partway through the body, with mid the in-memory state at
the moment of the raise (mutations made before the raise persist). -/
inductive IterInput where
  | normal (cmd : Option String) (servers : List String) (connectOk : Bool)
      (resolvedId : Option String) (waitCmds : List String)
  | raiseExc (mid : DaemonState)

/-- The connect step of one live tick (lines 239-321): read the selection
index, attempt the connection, and take the success or failure branch.
ok says whether the backend connect succeeds, rid is the identity it
resolves (lines 252-254 record rid, falling back to the raw entry). -/
def connectPhase (s₁ : DaemonState) (servers : List String) (ok : Bool)
    (rid : Option String) (wcmds : List String) : DaemonState × List Effect × Bool :=
  let len := servers.length
  let idx := (s₁.config.current_index % (len : Int)).toNat
  if ok then
    successTick { s₁ with current_connection := some (rid.getD (servers.getD idx "")) }
      idx len wcmds
  else failureTick s₁ idx len

/-- One iteration of the main while-loop body (lines 217-334). The
except-clause (lines 329-334) catches any exception from the body, logs
it, sleeps 5 seconds, and lets the loop resume. The Bool is true when the
iteration breaks out of the loop. -/
def iteration (s : DaemonState) : IterInput → DaemonState × List Effect × Bool
  | .raiseExc mid => (mid, [Effect.sleep 5], false)
  | .normal cmd servers ok rid wcmds =>
    if (pollStep s cmd).1.shutdown then
      ((pollStep s cmd).1, (pollStep s cmd).2, true)
    else if (pollStep s cmd).1.paused then
      ((pollStep s cmd).1, (pollStep s cmd).2 ++ [Effect.sleep 1], false)
    else if servers.isEmpty then
      ((pollStep s cmd).1, (pollStep s cmd).2 ++ [Effect.sleep 10], false)
    else
      ((connectPhase (pollStep s cmd).1 servers ok rid wcmds).1,
       (pollStep s cmd).2 ++ (connectPhase (pollStep s cmd).1 servers ok rid wcmds).2.1,
       (connectPhase (pollStep s cmd).1 servers ok rid wcmds).2.2)

/-- The main while-loop (line 217) over a finite trace of iteration
inputs. The Bool is true when the loop exited (the while condition failed
or an iteration broke out) before the trace ran out; false means the trace
was exhausted with the loop still live. -/
def runLoop : DaemonState → List IterInput → DaemonState × Bool
  | s, [] => (s, false)
  | s, i :: rest =>
    if s.shutdown then (s, true)
    else if (iteration s i).2.2 then ((iteration s i).1, true)
    else runLoop (iteration s i).1 rest

/-- First line of a string: the characters before the first newline. -/
def firstLine (s : String) : String := ⟨s.data.takeWhile (fun c => c ≠ '\n')⟩

/-- Interpretation of one polled chunk as the channel grammar of the
specification describes it: a single logical message is ONE
whitespace-trimmed LINE whose first token is the action and whose
remaining tokens are the arguments. Written from the words of the
specification, to be compared with pollProcess, which the source builds
from read_command and process_command. -/
def lineBasedPoll (s : DaemonState) (data : String) : DaemonState × List Effect :=
  if pyStrip data = "" then (s, [])
  else
    match pySplit (pyStrip (firstLine (pyStrip data))) with
    | [] => (s, [])
    | a :: args => processAction s (pyLower a) args

/-- C1: processing a skip command (in any state, hence in particular while
Running) advances the selection index, namely the rotation index as
reduced modulo the list length at every read, by exactly 1 modulo the
active list length, triggers exactly one disconnect, and leaves the rest
of the state (active list, interval, running, paused, shutdown)
unchanged. -/
theorem skip_advances_selection_index (s : DaemonState) (len : Nat)
    (h : 0 < len) :
    selIndex (processCommand s "skip").1 len = (selIndex s len + 1) % (len : Int)
    ∧ countDisconnects (processCommand s "skip").2 = 1
    ∧ (processCommand s "skip").1.config.active_list = s.config.active_list
    ∧ (processCommand s "skip").1.config.switch_interval_minutes
        = s.config.switch_interval_minutes
    ∧ (processCommand s "skip").1.config.running = s.config.running
    ∧ (processCommand s "skip").1.paused = s.paused
    ∧ (processCommand s "skip").1.shutdown = s.shutdown := by
  refine ⟨?_, rfl, rfl, rfl, rfl, rfl, rfl⟩
  show (s.config.current_index + 1) % (len : Int)
      = (s.config.current_index % (len : Int) + 1) % (len : Int)
  conv_lhs => rw [Int.add_emod]
  conv_rhs => rw [Int.add_emod, Int.emod_emod_of_dvd _ (dvd_refl _)]

/-- Witness for C1 at the default state and a three-entry list. -/
theorem skip_advances_selection_index_witness :
    0 < 3
    ∧ selIndex (processCommand initialState "skip").1 3
        = (selIndex initialState 3 + 1) % (3 : Int)
    ∧ countDisconnects (processCommand initialState "skip").2 = 1 :=
  ⟨by decide, (skip_advances_selection_index initialState 3 (by decide)).1,
   (skip_advances_selection_index initialState 3 (by decide)).2.1⟩

/-- C2: after any sequence of processed commands, the index used to select
a server (the stored index reduced modulo the list length at the read)
satisfies 0 le index lt max 1 (length of the active list); the read only
happens when the list is nonempty. -/
theorem selection_index_in_range (s : DaemonState) (cmds : List String)
    (len : Nat) (h : 0 < len) :
    0 ≤ selIndex (applyCommands s cmds) len
    ∧ selIndex (applyCommands s cmds) len < ((max 1 len : Nat) : Int) := by
  have hne : (len : Int) ≠ 0 := by exact_mod_cast h.ne'
  refine ⟨Int.emod_nonneg _ hne, ?_⟩
  rw [Nat.max_eq_right h]
  exact Int.emod_lt_of_pos _ (by exact_mod_cast h)

/-- Witness for C2 on a concrete command sequence and list length 3. -/
theorem selection_index_in_range_witness :
    0 < 3
    ∧ 0 ≤ selIndex (applyCommands initialState ["skip", "skip", "skip", "skip"]) 3
    ∧ selIndex (applyCommands initialState ["skip", "skip", "skip", "skip"]) 3
        < ((max 1 3 : Nat) : Int) :=
  ⟨by decide,
   (selection_index_in_range initialState ["skip", "skip", "skip", "skip"] 3
     (by decide)).1,
   (selection_index_in_range initialState ["skip", "skip", "skip", "skip"] 3
     (by decide)).2⟩

/-- C3: a switch command whose argument uppercases to A or B sets the
active list to that name and resets the index to 0, so the next read
selects entry 0; a switch command with any other argument leaves the whole
state unchanged and produces no effect. -/
theorem switch_sets_list_and_resets_index (s : DaemonState) (L t : String)
    (len : Nat) (hL : L = "A" ∨ L = "B") (hlen : 0 < len)
    (ht : pyUpper t ≠ "A") (ht2 : pyUpper t ≠ "B") :
    processAction s "switch" [L] =
      ({ s with config := { s.config with active_list := L, current_index := 0 } },
       [Effect.persist])
    ∧ selIndex (processAction s "switch" [L]).1 len = 0
    ∧ processAction s "switch" [t] = (s, []) := by
  have key : processAction s "switch" [t] =
      (if pyUpper t = "A" ∨ pyUpper t = "B" then
        ({ s with config := { s.config with active_list := pyUpper t,
                                            current_index := 0 } },
         [Effect.persist])
       else (s, [])) := rfl
  refine ⟨?_, ?_, ?_⟩
  · rcases hL with rfl | rfl <;> rfl
  · rcases hL with rfl | rfl <;> exact Int.zero_emod _
  · rw [key, if_neg]
    rintro (hh | hh) <;> [exact ht hh; exact ht2 hh]

/-- Witness for C3: switch to B from the default state, and a rejected
switch to C. -/
theorem switch_sets_list_and_resets_index_witness :
    (("B" : String) = "A" ∨ ("B" : String) = "B")
    ∧ 0 < 3
    ∧ pyUpper "C" ≠ "A"
    ∧ pyUpper "C" ≠ "B"
    ∧ processAction initialState "switch" ["B"] =
        ({ initialState with
            config := { initialState.config with active_list := "B",
                                                 current_index := 0 } },
         [Effect.persist])
    ∧ selIndex (processAction initialState "switch" ["B"]).1 3 = 0
    ∧ processAction initialState "switch" ["C"] = (initialState, []) :=
  ⟨Or.inr rfl, by decide, by decide, by decide,
   switch_sets_list_and_resets_index initialState "B" "C" 3 (Or.inr rfl)
     (by decide) (by decide) (by decide)⟩

/-- C4: a pause command never disconnects and leaves the recorded
connection and the cursor intact, in every state; a stop command triggers
exactly one disconnect in every state; and a pause arriving during the
wait phase exits the wait leaving the connection and the cursor intact,
with only the pause persist as effect and without breaking the loop. -/
theorem pause_never_disconnects_stop_once (s : DaemonState) (idx len : Nat)
    (h : s.shutdown = false) :
    countDisconnects (processCommand s "pause").2 = 0
    ∧ (processCommand s "pause").1.current_connection = s.current_connection
    ∧ (processCommand s "pause").1.config.current_index = s.config.current_index
    ∧ countDisconnects (processCommand s "stop").2 = 1
    ∧ successTick s idx len ["pause"] =
        ({ s with paused := true, config := { s.config with paused := true } },
         [Effect.persist], false) := by
  refine ⟨rfl, rfl, rfl, rfl, ?_⟩
  have hpc : processCommand s "pause" =
      ({ s with paused := true, config := { s.config with paused := true } },
       [Effect.persist]) := rfl
  have hw : waitPhase s ["pause"] =
      ({ s with paused := true, config := { s.config with paused := true } },
       [Effect.persist]) := by
    simp [waitPhase, hpc]
  simp [successTick, hw, h]

/-- Witness for C4 at the default state with a three-entry list. -/
theorem pause_never_disconnects_stop_once_witness :
    initialState.shutdown = false
    ∧ countDisconnects (processCommand initialState "pause").2 = 0
    ∧ countDisconnects (processCommand initialState "stop").2 = 1
    ∧ successTick initialState 0 3 ["pause"] =
        ({ initialState with
            paused := true,
            config := { initialState.config with paused := true } },
         [Effect.persist], false) :=
  ⟨rfl, (pause_never_disconnects_stop_once initialState 0 3 rfl).1,
   (pause_never_disconnects_stop_once initialState 0 3 rfl).2.2.2.1,
   (pause_never_disconnects_stop_once initialState 0 3 rfl).2.2.2.2⟩

/-- C5: when the wait phase runs out without shutdown and without pause,
the success branch disconnects, stores (idx+1) mod len as the new index,
persists the snapshot, and re-enters the loop (it does not break). -/
theorem wait_expiry_disconnect_advance_persist (s : DaemonState)
    (idx len : Nat) (cmds : List String)
    (h1 : (waitPhase s cmds).1.shutdown = false)
    (h2 : (waitPhase s cmds).1.paused = false) :
    successTick s idx len cmds =
      ({ (waitPhase s cmds).1 with
          current_connection := none,
          config := { (waitPhase s cmds).1.config with
            current_index := ((idx : Int) + 1) % (len : Int) } },
       (waitPhase s cmds).2 ++ [Effect.disconnect, Effect.sleep 2, Effect.persist],
       false) := by
  simp [successTick, h1, h2]

/-- Witness for C5: an empty wait at the default state advances index 0 to
1 on a three-entry list. -/
theorem wait_expiry_disconnect_advance_persist_witness :
    (waitPhase initialState []).1.shutdown = false
    ∧ (waitPhase initialState []).1.paused = false
    ∧ successTick initialState 0 3 [] =
        ({ initialState with
            current_connection := none,
            config := { initialState.config with current_index := 1 } },
         [Effect.disconnect, Effect.sleep 2, Effect.persist], false) := by
  refine ⟨rfl, rfl, ?_⟩
  rw [wait_expiry_disconnect_advance_persist initialState 0 3 [] rfl rfl]
  decide

/-- C6: on a failed connection attempt the recorded connection identity is
cleared, the index advances to (idx+1) mod len, the snapshot is persisted,
a fixed 10-second cooldown is waited, and the loop continues (the branch
never breaks and never sets shutdown); the single index advance per
attempt is what makes each server be tried at most once per pass. -/
theorem failure_clears_advances_cooldown_continues (s : DaemonState)
    (idx len : Nat) :
    (failureTick s idx len).1.current_connection = none
    ∧ (failureTick s idx len).1.config.current_index
        = ((idx : Int) + 1) % (len : Int)
    ∧ (failureTick s idx len).2.1 = [Effect.persist, Effect.sleep 10]
    ∧ (failureTick s idx len).2.2 = false
    ∧ (failureTick s idx len).1.shutdown = s.shutdown
    ∧ (failureTick s idx len).1.paused = s.paused
    ∧ (failureTick s idx len).1.config.active_list = s.config.active_list :=
  ⟨rfl, rfl, rfl, rfl, rfl, rfl, rfl⟩

/-- C7: an interval command whose argument parses to an integer m mutates
the persisted interval iff 1 le m le 1440; an out-of-range or unparseable
argument leaves the entire state unchanged with no effect. -/
theorem interval_guard (s : DaemonState) (t : String) :
    (∀ m : Int, pyToInt t = some m → 1 ≤ m → m ≤ 1440 →
      processAction s "interval" [t] =
        ({ s with config := { s.config with switch_interval_minutes := m } },
         [Effect.persist]))
    ∧ (∀ m : Int, pyToInt t = some m → ¬(1 ≤ m ∧ m ≤ 1440) →
      processAction s "interval" [t] = (s, []))
    ∧ (pyToInt t = none → processAction s "interval" [t] = (s, [])) := by
  have key : processAction s "interval" [t] =
      (match pyToInt t with
       | some minutes =>
         if 1 ≤ minutes ∧ minutes ≤ 1440 then
           ({ s with config :=
               { s.config with switch_interval_minutes := minutes } },
            [Effect.persist])
         else (s, [])
       | none => (s, [])) := rfl
  refine ⟨?_, ?_, ?_⟩
  · intro m hm ha hb
    rw [key, hm]
    simp [ha, hb]
  · intro m hm hn
    rw [key, hm]
    simp [hn]
  · intro hm
    rw [key, hm]

/-- Witness for C7: interval 99 accepted, interval 5000 and interval abc
rejected with the state unchanged. -/
theorem interval_guard_witness :
    pyToInt "99" = some 99
    ∧ pyToInt "5000" = some 5000
    ∧ pyToInt "abc" = none
    ∧ processAction initialState "interval" ["99"] =
        ({ initialState with
            config := { initialState.config with
              switch_interval_minutes := 99 } },
         [Effect.persist])
    ∧ processAction initialState "interval" ["5000"] = (initialState, [])
    ∧ processAction initialState "interval" ["abc"] = (initialState, []) :=
  ⟨by decide, by decide, by decide,
   (interval_guard initialState "99").1 99 (by decide) (by decide) (by decide),
   (interval_guard initialState "5000").2.1 5000 (by decide) (by decide),
   (interval_guard initialState "abc").2.2 (by decide)⟩

/-- C8 counterexample: the claim says a single logical message is one
whitespace-trimmed LINE; but on the chunk consisting of the two lines
switch and B, the code splits the whole chunk on any whitespace and
switches the active list to B, whereas the line-based reading of the claim
sees a switch command with no argument and leaves the state unchanged. -/
theorem poll_not_line_based :
    (pollProcess initialState "switch\nB").1.config.active_list = "B"
    ∧ lineBasedPoll initialState "switch\nB" = (initialState, [])
    ∧ (pollProcess initialState "switch\nB").1
        ≠ (lineBasedPoll initialState "switch\nB").1 := by
  decide

/-- C8 amended: one poll yields at most one command; the polled text is
stripped and split on runs of arbitrary whitespace (newlines included, so
a chunk of several lines becomes one command whose arguments may come from
later lines); the first token, lowered, is the action and the remaining
tokens are the arguments; an unrecognized action leaves the state
unchanged with no effect. -/
theorem poll_whitespace_chunk_semantics (s : DaemonState) (data a : String)
    (args : List String) (h : pySplit (pyStrip data) = a :: args) :
    pollProcess s data = processAction s (pyLower a) args
    ∧ pollProcess s "switch\nB" =
        ({ s with config := { s.config with active_list := "B",
                                            current_index := 0 } },
         [Effect.persist])
    ∧ (∀ act rest, act ∉ (["stop", "pause", "resume", "switch",
          "interval", "skip", "status"] : List String) →
        processAction s act rest = (s, [])) := by
  refine ⟨?_, rfl, ?_⟩
  · have hne : pyStrip data ≠ "" := by
      intro he
      rw [he] at h
      exact List.noConfusion (show ([] : List String) = a :: args from h)
    rw [pollProcess, if_neg hne, processCommand, if_neg hne, h]
  · intro act rest hmem
    simp only [List.mem_cons, List.mem_singleton, not_or] at hmem
    obtain ⟨n1, n2, n3, n4, n5, n6, n7⟩ := hmem
    unfold processAction
    rw [if_neg n1, if_neg n2, if_neg n3, if_neg n4, if_neg n5, if_neg n6,
      if_neg n7.1]

/-- Witness for C8: the two-line chunk is one switch command with the
argument taken from the second line, and an unknown action is dropped. -/
theorem poll_whitespace_chunk_semantics_witness :
    pySplit (pyStrip "switch\nB") = ["switch", "B"]
    ∧ pollProcess initialState "switch\nB"
        = processAction initialState (pyLower "switch") ["B"]
    ∧ pollProcess initialState "switch\nB" =
        ({ initialState with
            config := { initialState.config with active_list := "B",
                                                 current_index := 0 } },
         [Effect.persist])
    ∧ processAction initialState "hello" [] = (initialState, []) :=
  ⟨rfl,
   (poll_whitespace_chunk_semantics initialState "switch\nB" "switch" ["B"] rfl).1,
   (poll_whitespace_chunk_semantics initialState "switch\nB" "switch" ["B"] rfl).2.1,
   (poll_whitespace_chunk_semantics initialState "switch\nB" "switch" ["B"]
     rfl).2.2 "hello" [] (by decide)⟩

/-- Helper: when the success branch breaks the loop, the shutdown flag is
already set (the break at line 294 is guarded by it). -/
theorem successTick_exit_shutdown (s : DaemonState) (idx len : Nat)
    (cmds : List String) (h : (successTick s idx len cmds).2.2 = true) :
    (successTick s idx len cmds).1.shutdown = true := by
  unfold successTick at h ⊢
  dsimp only at h ⊢
  split_ifs at h ⊢ with h1 h2
  all_goals exact h1

/-- Helper: when the connect step breaks the loop, the shutdown flag is
already set (the failure branch never breaks). -/
theorem connectPhase_exit_shutdown (s₁ : DaemonState) (servers : List String)
    (ok : Bool) (rid : Option String) (wcmds : List String)
    (h : (connectPhase s₁ servers ok rid wcmds).2.2 = true) :
    (connectPhase s₁ servers ok rid wcmds).1.shutdown = true := by
  unfold connectPhase at h ⊢
  dsimp only at h ⊢
  split_ifs at h ⊢ with h1
  all_goals first
    | exact successTick_exit_shutdown _ _ _ _ h
    | exact absurd h (by simp [failureTick])

/-- Helper: an iteration breaks out of the main loop only with the
shutdown flag set; every other branch, exceptions included, continues. -/
theorem iteration_exit_shutdown (s : DaemonState) (i : IterInput)
    (h : (iteration s i).2.2 = true) : (iteration s i).1.shutdown = true := by
  cases i with
  | raiseExc mid => exact absurd h (by simp [iteration])
  | normal cmd servers ok rid wcmds =>
    unfold iteration at h ⊢
    dsimp only at h ⊢
    split_ifs at h ⊢ with h1 h2 h3
    all_goals first
      | exact h1
      | exact connectPhase_exit_shutdown _ _ _ _ _ h

/-- C9: an exception raised inside one loop iteration is caught and
followed by a 5-second delay with the loop resuming (the iteration does
not break); and whenever the main loop exits before its input trace runs
out, the shutdown flag is set, so only a stop command or signal-driven
shutdown terminates the loop. -/
theorem loop_exits_only_on_shutdown (s : DaemonState) (inputs : List IterInput)
    (mid : DaemonState) :
    ((runLoop s inputs).2 = true → (runLoop s inputs).1.shutdown = true)
    ∧ iteration s (.raiseExc mid) = (mid, [Effect.sleep 5], false) := by
  refine ⟨?_, rfl⟩
  induction inputs generalizing s with
  | nil => intro h; exact absurd h (by simp [runLoop])
  | cons i rest ih =>
    intro h
    by_cases hs : s.shutdown = true
    · rw [runLoop, if_pos hs]
      exact hs
    · rw [runLoop, if_neg hs] at h ⊢
      by_cases he : (iteration s i).2.2 = true
      · rw [if_pos he] at h ⊢
        exact iteration_exit_shutdown _ _ he
      · rw [if_neg he] at h ⊢
        exact ih _ h

/-- Witness for C9: a stop command exits the loop with shutdown set, and a
raised exception continues. -/
theorem loop_exits_only_on_shutdown_witness :
    (runLoop initialState [IterInput.normal (some "stop") [] true none []]).2
        = true
    ∧ (runLoop initialState
        [IterInput.normal (some "stop") [] true none []]).1.shutdown = true
    ∧ iteration initialState (.raiseExc initialState)
        = (initialState, [Effect.sleep 5], false) :=
  ⟨rfl,
   (loop_exits_only_on_shutdown initialState
     [IterInput.normal (some "stop") [] true none []] initialState).1 rfl,
   (loop_exits_only_on_shutdown initialState
     [IterInput.normal (some "stop") [] true none []] initialState).2⟩

/-- C10: processing a skip command is state-independent: in every state,
Paused included, it stores current_index + 1 without modulo reduction,
persists the snapshot, and performs one disconnect (clearing the recorded
connection); the stored value can equal the list length, as it does when
skipping at index 2 over the three-entry default list. -/
theorem skip_unconditional_increment (s : DaemonState) :
    processCommand s "skip" =
      ({ s with
          config := { s.config with
            current_index := s.config.current_index + 1 },
          current_connection := none },
       [Effect.persist, Effect.disconnect])
    ∧ (processCommand
        { initialState with
            config := { initialState.config with current_index := 2 } }
        "skip").1.config.current_index
        = ((["US-FREE#1", "CA#5", "NL-FREE#1"] : List String).length : Int) :=
  ⟨rfl, rfl⟩

end ProtonRotator
